import Mathlib

/-!
# Verification of the question-store server (src/server.js)

Shallow embedding of the Express server in `src/server.js`. The server keeps a
single JSON document `questions.json` holding `{ "questions": [ ... ] }` and
mutates it with whole-document read-modify-write handlers.

Modelling conventions:
* `Date.now()` and `new Date().toISOString()` are injected as explicit
  parameters (`now : Nat`, ms since epoch, and `nowISO : String`).
* The persisted file is modelled semantically by `FileState`: absent, present
  but blank, present but unparsable, or holding the JSON serialization of a
  `QuestionsData` value (JSON stringify/parse round-trips on this data).
* A parsed document may lack the `questions` key (e.g. the file holds `{}`),
  so `QuestionsData.questions` is an `Option`.  Stored questions may lack the
  `likes` and `answers` keys (the handlers guard for this at server.js:147 and
  server.js:193), so those fields are `Option` too; `none` models the field
  being absent or `null`.
* JavaScript truthiness on strings (`undefined`, `null` and `""` are falsy)
  is modelled by `jsOrString`; on the `isOwner` flag (`undefined` falsy) by
  `Option.getD false`.
* Each handler is a pure function from the current `FileState` (plus request
  data) to a response together with the `FileState` after the handler
  finishes; when the handler returns before calling `writeQuestionsFile`,
  the returned `FileState` is the input one (no write happened).
* A thrown-and-caught JavaScript `TypeError` (e.g. calling `.findIndex` or
  `.push` on `undefined`) surfaces as the handler's 500 response; it is
  modelled by `ApiError.internalError`.
-/

/-- An answer record, as built at server.js:138-145.  The `answers` slot is
the recursive nested-replies field of the schema; no handler populates it. -/
inductive Answer : Type where
  | mk (id : Nat) (content : String) (author : String) (isOwner : Bool)
      (date : String) (answers : List Answer) : Answer
deriving Repr

/-- A question record, as built at server.js:64-77, with the fields the
handlers may find absent in stored data made optional. -/
structure Question : Type where
  id : Nat
  name : String
  email : String
  question : String
  timestamp : String
  ip : String
  userAgent : String
  status : String
  response : Option String
  respondedAt : Option String
  likes : Option Nat
  answers : Option (List Answer)
deriving Repr

/-- The parsed shape of `questions.json`: an object that may or may not carry
a `questions` array. -/
structure QuestionsData : Type where
  questions : Option (List Question)
deriving Repr

/-- Semantic state of the persisted file. -/
inductive FileState : Type where
  | absent : FileState
  | blank : FileState
  | malformed : FileState
  | stored (d : QuestionsData) : FileState
deriving Repr

/-- Errors the handlers report: 400 on missing input, 404 on unknown id,
500 on an exception caught by the handler's try/catch. -/
inductive ApiError : Type where
  | invalidInput : ApiError
  | notFound : ApiError
  | internalError : ApiError
deriving Repr, DecidableEq

/-- `readQuestionsFile` (server.js:18-30): on a missing file, a blank file or
any parse failure it returns the default `{ questions: [] }`; otherwise the
parsed document. -/
def readQuestionsFile : FileState → QuestionsData
  | .absent => { questions := some [] }
  | .blank => { questions := some [] }
  | .malformed => { questions := some [] }
  | .stored d => d

/-- `writeQuestionsFile` (server.js:33-35): serializes the document and
writes it to `questions.json`; the final file state holds the document. -/
def writeQuestionsFile (d : QuestionsData) : FileState :=
  .stored d

/-- The file states a concurrent reader can observe while `writeQuestionsFile`
is in flight.  `fs.writeFile` opens the destination path itself with flag
`w` (`O_CREAT | O_TRUNC`) and then writes the bytes, so the truncated-empty
file is observable before the new content lands; there is no
write-to-temporary-then-rename step in server.js:33-35. -/
def writeQuestionsFileStates (d : QuestionsData) : List FileState :=
  [.blank, .stored d]

/-- `initializeQuestionsFile` (server.js:38-45): `fs.access` succeeds on any
existing file (blank, malformed or stored alike), in which case nothing is
written; only a missing file is replaced by the empty document. -/
def initializeQuestionsFile : FileState → FileState
  | .absent => .stored { questions := some [] }
  | f => f

/-- JavaScript `v || d` for an optional string request field: `undefined`,
`null` and the empty string are falsy. -/
def jsOrString (v : Option String) (d : String) : String :=
  match v with
  | none => d
  | some s => if s = "" then d else s

/-- `questions.findIndex(q => q.id == id)` (server.js:128, 183) followed by
the `questions[questionIndex]` access: index and element of the first
question whose id matches. -/
def findIndexById (qs : List Question) (qid : Nat) : Option (Nat × Question) :=
  match qs with
  | [] => none
  | q :: rest =>
    if q.id = qid then some (0, q)
    else (findIndexById rest qid).map (fun p => (p.1 + 1, p.2))

/-- Request body of `POST /api/submit-question` (server.js:50). -/
structure SubmitRequest : Type where
  name : Option String
  email : Option String
  question : Option String
  timestamp : Option String
  ip : Option String
  userAgent : Option String

/-- The handler of `POST /api/submit-question` (server.js:48-97).  `reqIp` and
`reqUA` are `req.ip` and `req.headers['user-agent']`.  Returns the response
(`questionId` on success) and the file state after the handler. -/
def submitQuestion (file : FileState) (req : SubmitRequest) (now : Nat)
    (nowISO : String) (reqIp : String) (reqUA : String) :
    Except ApiError Nat × FileState :=
  match req.question with
  | none => (.error .invalidInput, file)
  | some q =>
    if q = "" then (.error .invalidInput, file)
    else
      let questionsData := readQuestionsFile file
      let newQuestion : Question :=
        { id := now
          name := jsOrString req.name "Anonymous"
          email := jsOrString req.email "anonymous@example.com"
          question := q
          timestamp := jsOrString req.timestamp nowISO
          ip := jsOrString req.ip reqIp
          userAgent := jsOrString req.userAgent reqUA
          status := "pending"
          response := none
          respondedAt := none
          likes := some 0
          answers := some [] }
      match questionsData.questions with
      | none => (.error .internalError, file)
      | some qs =>
        (.ok now, writeQuestionsFile { questions := some (qs ++ [newQuestion]) })

/-- The handler of `GET /api/questions` (server.js:100-111):
`questionsData.questions || []`. -/
def listQuestions (file : FileState) : List Question :=
  (readQuestionsFile file).questions.getD []

/-- The part of the `POST /api/questions/:id/answer` handler after the
`await readQuestionsFile()` (server.js:126-165): `d` is the document the
handler loaded, `file` the file state when it resumes (used only when the
handler returns without writing). -/
def addAnswerCommit (file : FileState) (d : QuestionsData) (qid : Nat)
    (answer author : Option String) (isOwner : Option Bool) (now : Nat)
    (nowISO : String) : Except ApiError Unit × FileState :=
  match d.questions with
  | none => (.error .internalError, file)
  | some qs =>
    match findIndexById qs qid with
    | none => (.error .notFound, file)
    | some (i, q) =>
      let newAnswer : Answer :=
        .mk now (answer.getD "") (jsOrString author "Anonymous")
          (isOwner.getD false) nowISO []
      let q1 := { q with answers := some (q.answers.getD [] ++ [newAnswer]) }
      let q2 :=
        if isOwner.getD false then
          { q1 with status := "answered", response := answer,
                    respondedAt := some nowISO }
        else q1
      (.ok (), writeQuestionsFile { questions := some (qs.set i q2) })

/-- The handler of `POST /api/questions/:id/answer` (server.js:114-174).  An
absent or empty `answer` is rejected before the file is read. -/
def addAnswer (file : FileState) (qid : Nat) (answer author : Option String)
    (isOwner : Option Bool) (now : Nat) (nowISO : String) :
    Except ApiError Unit × FileState :=
  match answer with
  | none => (.error .invalidInput, file)
  | some a =>
    if a = "" then (.error .invalidInput, file)
    else addAnswerCommit file (readQuestionsFile file) qid answer author
      isOwner now nowISO

/-- The part of the `POST /api/questions/:id/like` handler after the
`await readQuestionsFile()` (server.js:181-203): the
`if (!q.likes) q.likes = 0; q.likes++` guard means an absent, `null` or `0`
counter increments to 1. -/
def likeCommit (file : FileState) (d : QuestionsData) (qid : Nat) :
    Except ApiError Nat × FileState :=
  match d.questions with
  | none => (.error .internalError, file)
  | some qs =>
    match findIndexById qs qid with
    | none => (.error .notFound, file)
    | some (i, q) =>
      let newLikes := q.likes.getD 0 + 1
      let q1 := { q with likes := some newLikes }
      (.ok newLikes, writeQuestionsFile { questions := some (qs.set i q1) })

/-- The handler of `POST /api/questions/:id/like` (server.js:177-212). -/
def likeQuestion (file : FileState) (qid : Nat) : Except ApiError Nat × FileState :=
  likeCommit file (readQuestionsFile file) qid

/-- Two concurrent like requests for the same question, interleaved at the
`await` boundaries the code actually has: both handlers complete their
`await readQuestionsFile()` (so both load the same document) before either
reaches `await writeQuestionsFile(...)`.  Nothing in server.js serializes
the two handlers, so this schedule is admissible in Node's event loop.
Returns the final file state. -/
def twoInterleavedLikes (file : FileState) (qid : Nat) : FileState :=
  let d1 := readQuestionsFile file
  let d2 := readQuestionsFile file
  let r1 := likeCommit file d1 qid
  let r2 := likeCommit r1.2 d2 qid
  r2.2

/-! ## Helper lemmas about `findIndexById` -/

/-- The question `findIndexById` returns is the element at the index it
returns. -/
theorem findIndexById_getElem? : ∀ {qs : List Question} {qid i : Nat}
    {q : Question}, findIndexById qs qid = some (i, q) → qs[i]? = some q := by
  intro qs
  induction qs with
  | nil => intro qid i q h; simp [findIndexById] at h
  | cons hd tl ih =>
    intro qid i q h
    rw [findIndexById] at h
    by_cases hid : hd.id = qid
    · rw [if_pos hid] at h
      simp only [Option.some.injEq, Prod.mk.injEq] at h
      obtain ⟨hi, hq⟩ := h
      subst hi; subst hq
      simp
    · rw [if_neg hid] at h
      simp only [Option.map_eq_some', Prod.mk.injEq] at h
      obtain ⟨⟨j, q'⟩, hfind, hi, hq⟩ := h
      subst hi; subst hq
      simpa using ih hfind

/-- The index `findIndexById` returns is in bounds. -/
theorem findIndexById_lt_length {qs : List Question} {qid i : Nat}
    {q : Question} (h : findIndexById qs qid = some (i, q)) : i < qs.length := by
  have := findIndexById_getElem? h
  exact (List.getElem?_eq_some_iff.mp this).1

/-- When no stored question carries the requested id, `findIndexById` finds
nothing (the handler's `findIndex` returns -1). -/
theorem findIndexById_eq_none {qs : List Question} {qid : Nat}
    (h : ∀ q ∈ qs, q.id ≠ qid) : findIndexById qs qid = none := by
  induction qs with
  | nil => rfl
  | cons hd tl ih =>
    rw [findIndexById]
    rw [if_neg (h hd (by simp))]
    rw [ih (fun q hq => h q (by simp [hq]))]
    rfl

/-! ## Concrete data used by the counterexample and witness theorems -/

/-- A well-formed stored question, as `submitQuestion` would create it. -/
def sampleQuestion : Question :=
  { id := 1
    name := "Ada"
    email := "ada@example.com"
    question := "Why?"
    timestamp := "2026-01-01T00:00:00.000Z"
    ip := "127.0.0.1"
    userAgent := "curl"
    status := "pending"
    response := none
    respondedAt := none
    likes := some 0
    answers := some [] }

/-- A stored question whose `likes` and `answers` keys are absent, as older
or hand-edited stored data may be. -/
def legacyQuestion : Question :=
  { sampleQuestion with id := 2, likes := none, answers := none }

/-- A store holding exactly `sampleQuestion`. -/
def sampleStore : FileState :=
  .stored { questions := some [sampleQuestion] }

/-- Two `submitQuestion` calls arriving within the same millisecond:
`Date.now()` returns 1000 for both.  Both start from a freshly initialized
empty store; the second runs after the first completed (fully serialized,
the most favourable schedule for the claim). -/
def sameTickRun :
    (Except ApiError Nat × FileState) × (Except ApiError Nat × FileState) :=
  let f0 := initializeQuestionsFile .absent
  let r1 := submitQuestion f0 ⟨none, none, some "Why?", none, none, none⟩
    1000 "T" "ip1" "ua1"
  let r2 := submitQuestion r1.2 ⟨none, none, some "How?", none, none, none⟩
    1000 "T" "ip2" "ua2"
  (r1, r2)

/-- C1: the generated question ids are NOT pairwise distinct.  `id` is
`Date.now()` (server.js:65) with no counter or tiebreak, so two submissions
that both succeed within the same clock tick (here both at millisecond
1000) each get id 1000: the stored id sequence is `[1000, 1000]`, which is
non-decreasing but has a duplicate.  This refutes the claimed uniqueness at
a concrete input; serialization alone cannot repair it. -/
theorem submitQuestion_sameTick_duplicate_ids :
    sameTickRun.1.1 = Except.ok 1000 ∧
    sameTickRun.2.1 = Except.ok 1000 ∧
    (listQuestions sameTickRun.2.2).map Question.id = [1000, 1000] ∧
    ¬ ((listQuestions sameTickRun.2.2).map Question.id).Nodup :=
  ⟨rfl, rfl, rfl, by decide⟩

/-- C2: a lost update.  Nothing in server.js serializes the mutation
handlers, so two concurrent `likeQuestion` calls on question 1 (initial
`likes = 0`) may both complete their `await readQuestionsFile()` before
either writes; each then increments its own stale copy and writes it, and
the final persisted count is 1, not 0 + 2.  The second conjunct shows the
same two calls executed one after the other (the schedule the claim's
mandated mutual exclusion would force) do yield 2: the handler body is
correct, only the claimed at-most-one-transaction-in-flight discipline is
absent from the code. -/
theorem likeQuestion_concurrent_lost_update :
    (listQuestions (twoInterleavedLikes sampleStore 1)).map
      (fun q => q.likes.getD 0) = [1] ∧
    (listQuestions (likeQuestion (likeQuestion sampleStore 1).2 1).2).map
      (fun q => q.likes.getD 0) = [2] :=
  ⟨rfl, rfl⟩

/-- The document `writeQuestionsFile` is writing in the C3 scenario: the old
store held `[sampleQuestion]`, the new document appends `legacyQuestion`. -/
def newerDoc : QuestionsData :=
  { questions := some [sampleQuestion, legacyQuestion] }

/-- C3: the write is NOT atomic with respect to concurrent reads.
`writeQuestionsFile` (server.js:33-35) calls `fs.writeFile` on the
destination path itself — there is no write-to-temporary-then-rename — so
the truncated file is an observable intermediate state of the write.  A
read scheduled there parses neither the fully-old document
(`[sampleQuestion]`) nor the fully-new one (`newerDoc`): it sees the
default empty document. -/
theorem writeQuestionsFile_not_atomic :
    FileState.blank ∈ writeQuestionsFileStates newerDoc ∧
    readQuestionsFile FileState.blank ≠
      readQuestionsFile (FileState.stored { questions := some [sampleQuestion] }) ∧
    readQuestionsFile FileState.blank ≠ readQuestionsFile (FileState.stored newerDoc) := by
  refine ⟨by simp [writeQuestionsFileStates], ?_, ?_⟩ <;>
    simp [readQuestionsFile, newerDoc]

/-- C4: on an existing question (found by id), `addAnswer` appends the new
answer record to the question's `answers` sequence; when `isOwner` is true
it additionally sets `status = "answered"`, `response` = the answer content
(overwriting whatever was there) and `respondedAt` = now; when `isOwner` is
false or absent it leaves `status`, `response` and `respondedAt` exactly as
they were; every other question in the collection is untouched. -/
theorem addAnswer_appends_and_couples_status
    (file : FileState) (qs : List Question) (qid i : Nat) (q : Question)
    (a : String) (author : Option String) (isOwner : Option Bool)
    (now : Nat) (nowISO : String)
    (hq : (readQuestionsFile file).questions = some qs)
    (hfind : findIndexById qs qid = some (i, q))
    (ha : a ≠ "") :
    ∃ qs',
      addAnswer file qid (some a) author isOwner now nowISO =
        (Except.ok (), FileState.stored { questions := some qs' }) ∧
      qs'.length = qs.length ∧
      (∀ j, j ≠ i → qs'[j]? = qs[j]?) ∧
      ∃ q', qs'[i]? = some q' ∧
        q'.answers = some (q.answers.getD [] ++
          [Answer.mk now a (jsOrString author "Anonymous") (isOwner.getD false)
            nowISO []]) ∧
        (isOwner.getD false = true →
          q'.status = "answered" ∧ q'.response = some a ∧
            q'.respondedAt = some nowISO) ∧
        (isOwner.getD false = false →
          q'.status = q.status ∧ q'.response = q.response ∧
            q'.respondedAt = q.respondedAt) := by
  have hlt : i < qs.length := findIndexById_lt_length hfind
  cases hOwn : isOwner.getD false with
  | true =>
    simp only [addAnswer, addAnswerCommit, if_neg ha, hq, hfind, hOwn, if_true]
    refine ⟨_, rfl, by simp, fun j hj => List.getElem?_set_ne (Ne.symm hj), ?_⟩
    exact ⟨_, List.getElem?_set_self hlt, rfl, fun _ => ⟨rfl, rfl, rfl⟩,
      fun hcon => by simp at hcon⟩
  | false =>
    simp only [addAnswer, addAnswerCommit, if_neg ha, hq, hfind, hOwn, if_false]
    refine ⟨_, rfl, by simp, fun j hj => List.getElem?_set_ne (Ne.symm hj), ?_⟩
    exact ⟨_, List.getElem?_set_self hlt, rfl, fun hcon => by simp at hcon,
      fun _ => ⟨rfl, rfl, rfl⟩⟩

/-- C5: `submitQuestion` rejects a missing or empty question text with
`InvalidInput` (writing nothing); on a non-empty question it appends to the
end of the collection one new question whose id is the generated `now`
value (which it also returns), with `name`/`email` default-filled when
absent, `status = "pending"`, `response = null`, `respondedAt = null`,
`likes = 0` and no answers. -/
theorem submitQuestion_validates_and_appends
    (file : FileState) (req : SubmitRequest) (now : Nat)
    (nowISO reqIp reqUA : String) :
    ((req.question = none ∨ req.question = some "") →
      submitQuestion file req now nowISO reqIp reqUA =
        (Except.error ApiError.invalidInput, file)) ∧
    (∀ qtext qs, req.question = some qtext → qtext ≠ "" →
      (readQuestionsFile file).questions = some qs →
      ∃ newQ,
        submitQuestion file req now nowISO reqIp reqUA =
          (Except.ok now, FileState.stored { questions := some (qs ++ [newQ]) }) ∧
        newQ.id = now ∧
        newQ.name = jsOrString req.name "Anonymous" ∧
        newQ.email = jsOrString req.email "anonymous@example.com" ∧
        newQ.question = qtext ∧
        newQ.status = "pending" ∧
        newQ.response = none ∧
        newQ.respondedAt = none ∧
        newQ.likes = some 0 ∧
        newQ.answers = some []) := by
  constructor
  · rintro (h | h) <;> simp [submitQuestion, h]
  · intro qtext qs hq hne hqs
    simp only [submitQuestion, hq, if_neg hne, hqs]
    exact ⟨_, rfl, rfl, rfl, rfl, rfl, rfl, rfl, rfl, rfl, rfl⟩

/-- C6: with no stored question carrying the requested id, both
`likeQuestion` and `addAnswer` (with non-empty content) fail with
`NotFound`, and `addAnswer` with missing or empty content fails with
`InvalidInput`; in all four cases the handler returns before
`writeQuestionsFile` is reached, so the persisted file is exactly the one
it started with. -/
theorem unknown_id_rejected_without_write
    (file : FileState) (qs : List Question) (qid : Nat)
    (a : String) (author : Option String) (isOwner : Option Bool)
    (now : Nat) (nowISO : String)
    (hq : (readQuestionsFile file).questions = some qs)
    (hmiss : ∀ q ∈ qs, q.id ≠ qid)
    (ha : a ≠ "") :
    likeQuestion file qid = (Except.error ApiError.notFound, file) ∧
    addAnswer file qid (some a) author isOwner now nowISO =
      (Except.error ApiError.notFound, file) ∧
    addAnswer file qid none author isOwner now nowISO =
      (Except.error ApiError.invalidInput, file) ∧
    addAnswer file qid (some "") author isOwner now nowISO =
      (Except.error ApiError.invalidInput, file) := by
  have hnone := findIndexById_eq_none hmiss
  refine ⟨?_, ?_, rfl, ?_⟩
  · simp [likeQuestion, likeCommit, hq, hnone]
  · simp [addAnswer, addAnswerCommit, if_neg ha, hq, hnone]
  · simp [addAnswer]

/-- C7: `load` is the total function `readQuestionsFile` — it never raises.
On a missing file, a blank file, or a present-but-unparsable file it
returns the empty collection, and a subsequent `submitQuestion` with a
non-empty question succeeds, returns the generated id, and persists a
store from which `listQuestions` reads back exactly the new question. -/
theorem readQuestionsFile_fail_open_then_submit
    (file : FileState)
    (hbad : file = FileState.absent ∨ file = FileState.blank ∨
      file = FileState.malformed)
    (qtext : String) (hne : qtext ≠ "")
    (name email timestamp ip ua : Option String)
    (now : Nat) (nowISO reqIp reqUA : String) :
    readQuestionsFile file = { questions := some [] } ∧
    ∃ newQ,
      submitQuestion file ⟨name, email, some qtext, timestamp, ip, ua⟩
          now nowISO reqIp reqUA =
        (Except.ok now, FileState.stored { questions := some [newQ] }) ∧
      newQ.question = qtext ∧
      listQuestions (submitQuestion file ⟨name, email, some qtext, timestamp, ip, ua⟩
          now nowISO reqIp reqUA).2 = [newQ] := by
  have hread : readQuestionsFile file = { questions := some [] } := by
    rcases hbad with h | h | h <;> subst h <;> rfl
  refine ⟨hread, ?_⟩
  simp only [submitQuestion, if_neg hne, hread, listQuestions]
  exact ⟨_, rfl, rfl, rfl⟩

/-- C8: `initializeQuestionsFile` writes the empty collection when the file
is missing, leaves any existing file (blank, malformed or stored) exactly
as it is, is idempotent, and applied twice to a store holding the
questions `qs` still leaves exactly `qs` readable. -/
theorem initializeQuestionsFile_idempotent
    (file : FileState) (qs : List Question) :
    initializeQuestionsFile FileState.absent =
      FileState.stored { questions := some [] } ∧
    (file ≠ FileState.absent → initializeQuestionsFile file = file) ∧
    initializeQuestionsFile (initializeQuestionsFile file) =
      initializeQuestionsFile file ∧
    listQuestions (initializeQuestionsFile (initializeQuestionsFile
      (FileState.stored { questions := some qs }))) = qs := by
  refine ⟨rfl, ?_, ?_, rfl⟩
  · intro h
    cases file with
    | absent => exact absurd rfl h
    | blank => rfl
    | malformed => rfl
    | stored d => rfl
  · cases file <;> rfl

/-- C9: on a stored document that parses but has no `questions` array (the
file holds `{}`), `listQuestions` returns the empty list — the handler's
`questionsData.questions || []` guard — while every mutating handler on
the same state throws on `undefined` and surfaces the caught 500, writing
nothing. -/
theorem listQuestions_missing_array_safe
    (qid : Nat) (a : String) (ha : a ≠ "")
    (author : Option String) (isOwner : Option Bool) (now : Nat)
    (nowISO reqIp reqUA : String)
    (name email timestamp ip ua : Option String) :
    listQuestions (FileState.stored { questions := none }) = [] ∧
    likeQuestion (FileState.stored { questions := none }) qid =
      (Except.error ApiError.internalError,
        FileState.stored { questions := none }) ∧
    addAnswer (FileState.stored { questions := none }) qid (some a) author
        isOwner now nowISO =
      (Except.error ApiError.internalError,
        FileState.stored { questions := none }) ∧
    submitQuestion (FileState.stored { questions := none })
        ⟨name, email, some a, timestamp, ip, ua⟩ now nowISO reqIp reqUA =
      (Except.error ApiError.internalError,
        FileState.stored { questions := none }) := by
  refine ⟨rfl, rfl, ?_, ?_⟩
  · simp [addAnswer, addAnswerCommit, readQuestionsFile, if_neg ha]
  · simp [submitQuestion, readQuestionsFile, if_neg ha]

/-- C10: on a stored question whose `likes` key is absent or `null`, the
`if (!q.likes) q.likes = 0` guard makes `likeQuestion` count from 0: it
succeeds, returns 1, and persists the question with `likes = 1`, leaving
every other question untouched. -/
theorem likeQuestion_missing_likes_counts_from_zero
    (file : FileState) (qs : List Question) (qid i : Nat) (q : Question)
    (hq : (readQuestionsFile file).questions = some qs)
    (hfind : findIndexById qs qid = some (i, q))
    (hlikes : q.likes = none) :
    ∃ qs',
      likeQuestion file qid =
        (Except.ok 1, FileState.stored { questions := some qs' }) ∧
      qs'[i]? = some { q with likes := some 1 } ∧
      (∀ j, j ≠ i → qs'[j]? = qs[j]?) := by
  have hlt : i < qs.length := findIndexById_lt_length hfind
  simp only [likeQuestion, likeCommit, hq, hfind, hlikes, Option.getD_none,
    Nat.zero_add]
  exact ⟨_, rfl, List.getElem?_set_self hlt,
    fun j hj => List.getElem?_set_ne (Ne.symm hj)⟩

/-- Witness for the C4 theorem: an owner answer on the sample store. -/
theorem addAnswer_appends_and_couples_status_witness :
    ((readQuestionsFile sampleStore).questions = some [sampleQuestion]) ∧
    (findIndexById [sampleQuestion] 1 = some (0, sampleQuestion)) ∧
    ("Because." ≠ "") ∧
    (∃ qs',
      addAnswer sampleStore 1 (some "Because.") none (some true) 500 "T2" =
        (Except.ok (), FileState.stored { questions := some qs' }) ∧
      qs'.length = [sampleQuestion].length ∧
      (∀ j, j ≠ 0 → qs'[j]? = [sampleQuestion][j]?) ∧
      ∃ q', qs'[0]? = some q' ∧
        q'.answers = some (sampleQuestion.answers.getD [] ++
          [Answer.mk 500 "Because." (jsOrString none "Anonymous")
            ((some true : Option Bool).getD false) "T2" []]) ∧
        ((some true : Option Bool).getD false = true →
          q'.status = "answered" ∧ q'.response = some "Because." ∧
            q'.respondedAt = some "T2") ∧
        ((some true : Option Bool).getD false = false →
          q'.status = sampleQuestion.status ∧
            q'.response = sampleQuestion.response ∧
            q'.respondedAt = sampleQuestion.respondedAt)) :=
  ⟨rfl, rfl, by decide,
    addAnswer_appends_and_couples_status sampleStore [sampleQuestion] 1 0
      sampleQuestion "Because." none (some true) 500 "T2" rfl rfl (by decide)⟩

/-- Witness for the C5 theorem: a valid submission against the sample store. -/
theorem submitQuestion_validates_and_appends_witness :
    (("Why not?" : String) ≠ "") ∧
    ((readQuestionsFile sampleStore).questions = some [sampleQuestion]) ∧
    (∃ newQ,
      submitQuestion sampleStore ⟨none, none, some "Why not?", none, none, none⟩
          2000 "T" "ip" "ua" =
        (Except.ok 2000,
          FileState.stored { questions := some ([sampleQuestion] ++ [newQ]) }) ∧
      newQ.id = 2000 ∧
      newQ.name = jsOrString none "Anonymous" ∧
      newQ.email = jsOrString none "anonymous@example.com" ∧
      newQ.question = "Why not?" ∧
      newQ.status = "pending" ∧
      newQ.response = none ∧
      newQ.respondedAt = none ∧
      newQ.likes = some 0 ∧
      newQ.answers = some []) :=
  ⟨by decide, rfl,
    (submitQuestion_validates_and_appends sampleStore
      ⟨none, none, some "Why not?", none, none, none⟩ 2000 "T" "ip" "ua").2
      "Why not?" [sampleQuestion] rfl (by decide) rfl⟩

/-- Witness for the C6 theorem: id 9999999 matches no stored question. -/
theorem unknown_id_rejected_without_write_witness :
    ((readQuestionsFile sampleStore).questions = some [sampleQuestion]) ∧
    (∀ q ∈ [sampleQuestion], q.id ≠ 9999999) ∧
    (("x" : String) ≠ "") ∧
    (likeQuestion sampleStore 9999999 =
      (Except.error ApiError.notFound, sampleStore) ∧
    addAnswer sampleStore 9999999 (some "x") none none 600 "T3" =
      (Except.error ApiError.notFound, sampleStore) ∧
    addAnswer sampleStore 9999999 none none none 600 "T3" =
      (Except.error ApiError.invalidInput, sampleStore) ∧
    addAnswer sampleStore 9999999 (some "") none none 600 "T3" =
      (Except.error ApiError.invalidInput, sampleStore)) :=
  ⟨rfl, by decide, by decide,
    unknown_id_rejected_without_write sampleStore [sampleQuestion] 9999999 "x"
      none none 600 "T3" rfl (by decide) (by decide)⟩

/-- Witness for the C7 theorem: recovery from an unparsable stored file. -/
theorem readQuestionsFile_fail_open_then_submit_witness :
    (FileState.malformed = FileState.absent ∨
      FileState.malformed = FileState.blank ∨
      FileState.malformed = FileState.malformed) ∧
    (("Why?" : String) ≠ "") ∧
    (readQuestionsFile FileState.malformed = { questions := some [] } ∧
    ∃ newQ,
      submitQuestion FileState.malformed
          ⟨none, none, some "Why?", none, none, none⟩ 3000 "T" "ip" "ua" =
        (Except.ok 3000, FileState.stored { questions := some [newQ] }) ∧
      newQ.question = "Why?" ∧
      listQuestions (submitQuestion FileState.malformed
          ⟨none, none, some "Why?", none, none, none⟩ 3000 "T" "ip" "ua").2 =
        [newQ]) :=
  ⟨Or.inr (Or.inr rfl), by decide,
    readQuestionsFile_fail_open_then_submit FileState.malformed
      (Or.inr (Or.inr rfl)) "Why?" (by decide) none none none none none
      3000 "T" "ip" "ua"⟩

/-- Witness for the C8 theorem at the sample store. -/
theorem initializeQuestionsFile_idempotent_witness :
    (sampleStore ≠ FileState.absent) ∧
    (initializeQuestionsFile FileState.absent =
      FileState.stored { questions := some [] } ∧
    (sampleStore ≠ FileState.absent →
      initializeQuestionsFile sampleStore = sampleStore) ∧
    initializeQuestionsFile (initializeQuestionsFile sampleStore) =
      initializeQuestionsFile sampleStore ∧
    listQuestions (initializeQuestionsFile (initializeQuestionsFile
      (FileState.stored { questions := some [sampleQuestion] }))) =
      [sampleQuestion]) :=
  ⟨fun h => FileState.noConfusion h,
    initializeQuestionsFile_idempotent sampleStore [sampleQuestion]⟩

/-- Witness for the C9 theorem at concrete request data. -/
theorem listQuestions_missing_array_safe_witness :
    (("x" : String) ≠ "") ∧
    (listQuestions (FileState.stored { questions := none }) = [] ∧
    likeQuestion (FileState.stored { questions := none }) 7 =
      (Except.error ApiError.internalError,
        FileState.stored { questions := none }) ∧
    addAnswer (FileState.stored { questions := none }) 7 (some "x") none
        none 700 "T4" =
      (Except.error ApiError.internalError,
        FileState.stored { questions := none }) ∧
    submitQuestion (FileState.stored { questions := none })
        ⟨none, none, some "x", none, none, none⟩ 700 "T4" "ip" "ua" =
      (Except.error ApiError.internalError,
        FileState.stored { questions := none })) :=
  ⟨by decide,
    listQuestions_missing_array_safe 7 "x" (by decide) none none 700 "T4"
      "ip" "ua" none none none none none⟩

/-- Witness for the C10 theorem: liking a stored question with no `likes`
key. -/
theorem likeQuestion_missing_likes_counts_from_zero_witness :
    ((readQuestionsFile (FileState.stored
      { questions := some [legacyQuestion] })).questions =
        some [legacyQuestion]) ∧
    (findIndexById [legacyQuestion] 2 = some (0, legacyQuestion)) ∧
    (legacyQuestion.likes = none) ∧
    (∃ qs',
      likeQuestion (FileState.stored { questions := some [legacyQuestion] }) 2 =
        (Except.ok 1, FileState.stored { questions := some qs' }) ∧
      qs'[0]? = some { legacyQuestion with likes := some 1 } ∧
      (∀ j, j ≠ 0 → qs'[j]? = [legacyQuestion][j]?)) :=
  ⟨rfl, rfl, rfl,
    likeQuestion_missing_likes_counts_from_zero
      (FileState.stored { questions := some [legacyQuestion] })
      [legacyQuestion] 2 0 legacyQuestion rfl rfl rfl⟩
